import Mathlib

/-!
Shallow embedding of `src/lib/zkapp.ts` (the zkapp method registry, dispatcher,
statement binder, proving pipeline and transaction assembly of o1js), together
with theorems settling the specification claims about it.

Conventions:
* JS `Field` elements are modelled as `Nat` (opaque field values; the claims
  never depend on field arithmetic, only on equality of digests).
* JS exceptions are modelled with `Except ZkError`.
* JS heap mutation is modelled by explicit state passing.
* External collaborators (hashing, the `party.ts` / `mina.ts` account and
  transaction model, key derivation) are either parameters of the definitions
  or definitions marked `Modelled from the spec:`.
-/

set_option autoImplicit false
set_option linter.unusedVariables false

namespace Zkapp

/-- Opaque field element (`Field` in the source). -/
abbrev F := Nat

/-- A loosely-typed JS value as it flows through method arguments:
`undefined`, a boolean (the trailing `forceDirect` flag), or a
field-representable value collapsed to a field element. -/
inductive JSVal where
  | undef
  | boolVal (b : Bool)
  | fieldVal (x : F)
deriving DecidableEq, Repr

/-- Modelled from the spec: the `Authorization` tagged variant attached to an
account update (`party.authorization` in `party.ts`, which is not under
`src/`): `none` (the empty object), `signature`, `proof`, or one of the lazy
placeholders carrying a `kind` key. `lazyProof` captures the method reference
(as an id), the actual non-flag arguments, and the owning contract class (as
an id), exactly the fields written by `wrapMethod` in `zkapp.ts`. -/
inductive Authorization where
  | none
  | signature (privKey : Nat)
  | proof (p : Nat)
  | lazySignature (privKey : Option Nat)
  | lazyProof (methodId : Nat) (args : List JSVal) (classId : Nat)
deriving DecidableEq, Repr

/-- The JS test `'kind' in auth || 'proof' in auth || 'signature' in auth`
from `wrapMethod` (zkapp.ts line 115): every authorization object except the
empty one carries one of those keys. -/
def hasAuthorizationKeys : Authorization → Bool
  | .none => false
  | _ => true

/-- Modelled from the spec: the pending account update record
(`Party` in `party.ts`, not under `src/`) with the fields the core
reads/writes: address, balance delta, set-or-keep verification key and
permissions, and the authorization slot. -/
structure Party where
  publicKey : Nat
  balanceDelta : Int := 0
  verificationKey : Option F := Option.none
  permissions : Option Nat := Option.none
  authorization : Authorization := .none
deriving DecidableEq, Repr

/-- Modelled from the spec: `createDefaultUpdate(address)` — the fresh default
party built by `selfParty` in zkapp.ts via `Body.keepAll(address)` (all
set-or-keep fields keep, zero balance delta, no authorization). -/
def selfParty (address : Nat) : Party := { publicKey := address }

/-- The error taxonomy of the spec (§7), standing in for the `Error` values
thrown by the source. -/
inductive ZkError where
  | invalidDeclaration
  | notCompiled
  | methodNotFound
  | witnessArityMismatch
  | statementMismatch
  | missingFeePayerKey
  | proofVerificationFailed
  | preconditionViolation
deriving DecidableEq, Repr

/-- `Field.assertEquals`: succeeds exactly on equal values; in the statement
binder the spec names the failure `StatementMismatch`. -/
def assertEqualsF (a b : F) : Except ZkError Unit :=
  if a = b then .ok () else .error .statementMismatch

theorem exceptBind_ok {ε α β : Type} (a : α) (f : α → Except ε β) :
    (Except.ok a >>= f) = f a := rfl

theorem exceptBind_error {ε α β : Type} (e : ε) (f : α → Except ε β) :
    ((Except.error e : Except ε α) >>= f) = Except.error e := rfl

/-! ## Method dispatch wrapper (`wrapMethod`, zkapp.ts lines 93–127)

The original method body is modelled as a pure function from the actual
arguments and the current self party to the updated self party and a result
value. The ambient configuration is passed explicitly: whether
`Mina.currentTransaction` is defined (`txActive`) and whether `inCompile()`
holds (`compiling`). `assertPreconditionInvariants` is an external
collaborator, passed as a boolean check `checkPre`. -/

def wrappedMethod (body : List JSVal → Party → Party × JSVal) (argsLength : Nat)
    (zkappClassId : Nat) (methodId : Nat) (checkPre : Party → Bool)
    (txActive : Bool) (compiling : Bool)
    (self : Party) (args : List JSVal) : Except ZkError (Party × JSVal) :=
  let actualArgs := args.take argsLength
  let shouldCallDirectly := args.getD argsLength JSVal.undef
  if txActive = false ∨ shouldCallDirectly = JSVal.boolVal true then
    if compiling then
      -- in compile, check the self party right after calling the method
      let r := body actualArgs self
      if checkPre r.1 then .ok r else .error .preconditionViolation
    else
      -- outside a transaction, just call the method
      .ok (body actualArgs self)
  else
    -- in a transaction, also add a lazy proof to the self party
    -- (if there is no other authorization set)
    let auth := self.authorization
    let self' :=
      if hasAuthorizationKeys auth then self
      else { self with
             authorization := .lazyProof methodId actualArgs zkappClassId }
    .ok (body actualArgs self')

/-! ## Statement binder (`toStatement` / `checkStatement`, zkapp.ts lines 159–175)

The hashing primitives (`self.hash()` and `Ledger.hashTransactionChecked`) are
external collaborators of the proof system; they are passed explicitly as a
bundle of functions. -/

/-- The external hashing primitives used by the statement binder:
`hashParty` is `Party.hash()` and `hashTransactionChecked` is
`Ledger.hashTransactionChecked`. -/
structure HashPrimitives where
  hashParty : Party → F
  hashTransactionChecked : F → F

/-- A `Statement`: the transaction digest and the digest of the proving
party (zkapp.ts line 154). -/
structure Statement where
  transaction : F
  atParty : F
deriving DecidableEq, Repr

/-- `toStatement(self, tail)` (zkapp.ts lines 159–164): hash the party to get
`atParty`, then feed it through the transaction hash to get `transaction`.
The `tail` parameter is threaded through but unused (forward-compatibility
placeholder). -/
def toStatement (H : HashPrimitives) (self : Party) (tail : F) : Statement :=
  let atParty := H.hashParty self
  let transaction := H.hashTransactionChecked atParty
  { transaction := transaction, atParty := atParty }

/-- `checkStatement(statement, self, tail)` (zkapp.ts lines 166–175):
recompute the statement from the party and assert equality field-by-field. -/
def checkStatement (H : HashPrimitives) (st : Statement) (self : Party) (tail : F) :
    Except ZkError Unit := do
  let otherStatement := toStatement H self tail
  assertEqualsF st.atParty otherStatement.atParty
  assertEqualsF st.transaction otherStatement.transaction

/-! ## The circuit body of a pickles rule (`picklesRuleFromFunction`,
zkapp.ts lines 177–198)

The witness-value plumbing of `main`: the declared witness types are a list of
field-representable type descriptors; `Circuit.witness(type, thunk)` is the
external `allocateWitness` collaborator whose value is the thunk's value, so
the allocated value for position `i` is `witnesses![i]` (JS out-of-range
indexing yields `undefined`) when a value list was supplied, and the
zero-filled placeholder `emptyWitness` otherwise. Note the JS truthiness test
`witnesses ? ... : emptyWitness` takes the first branch for an empty array
too. The user circuit `func` is a parameter that may fail. -/

/-- A field-representable type descriptor as seen by the circuit:
`sizeInFields` and `ofFields` (the members `emptyWitness` uses). -/
structure AsFieldElementsM where
  sizeInFields : Nat
  ofFields : List F → JSVal

/-- `emptyWitness(typ)` (zkapp.ts lines 442–447): the canonical zero-filled
placeholder value of the type. -/
def emptyWitness (typ : AsFieldElementsM) : JSVal :=
  typ.ofFields (List.replicate typ.sizeInFields 0)

/-- The witness list materialized by `main` (zkapp.ts lines 184–188):
for each declared witness position `i`, the `i`-th supplied value
(JS `undefined` when the supplied list is too short) if a value list is
present, else the zero placeholder. -/
def mainWitnesses (witnessTypes : List AsFieldElementsM)
    (supplied : Option (List JSVal)) : List JSVal :=
  match supplied with
  | Option.some ws => (List.range witnessTypes.length).map fun i => ws.getD i JSVal.undef
  | Option.none => witnessTypes.map emptyWitness

/-- The circuit body `main(statement)` of `picklesRuleFromFunction`
(zkapp.ts lines 182–195): materialize the witnesses, run the method body on
them, then assert `statement.transaction.assertEquals(statement.transaction)`.
The call `checkStatement(statement, self, tail)` is commented out in the
source (the FIXME at line 191), so no comparison against a recomputed
statement happens; `cleanPreconditionsCache(self)` is an external cache hook
with no observable effect here. -/
def mainRule (witnessTypes : List AsFieldElementsM)
    (func : List JSVal → Except ZkError Unit)
    (supplied : Option (List JSVal)) (statement : Statement) :
    Except ZkError Unit := do
  let witnesses := mainWitnesses witnessTypes supplied
  func witnesses
  -- let tail := Field.zero
  assertEqualsF statement.transaction statement.transaction
  -- checkStatement(statement, self, tail) : commented out in the source

/-! ## Per-instance execution state (`SmartContract.executionState` / `self`,
zkapp.ts lines 341–382) -/

/-- Modelled from the spec: the transaction-building session of `mina.ts`
(not under `src/`): `Mina.currentTransaction` with its growing party list and
`nextPartyIndex` counter. -/
structure CurrentTx where
  parties : List Party
  nextPartyIndex : Nat
deriving DecidableEq, Repr

/-- Modelled from the spec: the ambient Mina module state read by
`executionState`: the optional current transaction and
`Mina.nextTransactionId.value`, the session identifier. -/
structure MinaState where
  currentTransaction : Option CurrentTx
  nextTransactionId : Nat
deriving DecidableEq, Repr

/-- The per-smart-contract `ExecutionState` record (zkapp.ts lines 431–435).
`transactionId` and `partyIndex` are JS numbers that may be `NaN`, modelled as
`Option Nat` with `Option.none` for `NaN`. -/
structure ExecutionState where
  transactionId : Option Nat
  partyIndex : Option Nat
  party : Party
deriving DecidableEq, Repr

/-- The mutable fields of a `SmartContract` instance: its address and the
memoized `_executionState`. -/
structure SCInstance where
  address : Nat
  executionStateMemo : Option ExecutionState
deriving DecidableEq, Repr

/-- JS strict equality `===` on numbers that may be `NaN` (`Option.none`):
`NaN` compares unequal to everything, including itself. -/
def jsEqNum : Option Nat → Option Nat → Bool
  | Option.some a, Option.some b => a == b
  | _, _ => false

/-- The creation path of `executionState` (zkapp.ts lines 367–377): take the
current transaction id and the next party index, build a fresh default party,
push it onto the transaction's party list, memoize, and return. -/
def executionStateCreate (mina : MinaState) (tx : CurrentTx) (inst : SCInstance) :
    ExecutionState × MinaState × SCInstance :=
  let id := mina.nextTransactionId
  let index := tx.nextPartyIndex
  let party := selfParty inst.address
  let tx' : CurrentTx := { parties := tx.parties ++ [party], nextPartyIndex := index + 1 }
  let es : ExecutionState :=
    { transactionId := Option.some id, partyIndex := Option.some index, party := party }
  (es, { mina with currentTransaction := Option.some tx' },
   { inst with executionStateMemo := Option.some es })

/-- `SmartContract.executionState()` (zkapp.ts lines 341–378), with the
ambient state passed explicitly: `mainCtxSelf` is `mainContext?.self` (the
compile/prover context), then the `Mina.currentTransaction` check, then the
memo keyed by `transactionId === Mina.nextTransactionId.value`. Returns the
execution state together with the updated Mina and instance state.
`SmartContract.self` is `(executionState()).party`. -/
def executionState (mainCtxSelf : Option Party) (mina : MinaState) (inst : SCInstance) :
    ExecutionState × MinaState × SCInstance :=
  match mainCtxSelf with
  | Option.some p =>
      ({ transactionId := Option.some 0, partyIndex := Option.some 0, party := p },
       mina, inst)
  | Option.none =>
    match mina.currentTransaction with
    | Option.none =>
        -- outside any transaction: fresh non-writable party, nothing memoized
        ({ transactionId := Option.none, partyIndex := Option.none,
           party := selfParty inst.address }, mina, inst)
    | Option.some tx =>
      match inst.executionStateMemo with
      | Option.some es =>
          if jsEqNum es.transactionId (Option.some mina.nextTransactionId) then
            (es, mina, inst)
          else executionStateCreate mina tx inst
      | Option.none => executionStateCreate mina tx inst

/-! ## Prover-handle resolution (`SmartContract.prove`, zkapp.ts lines 272–282)
and method registration (`method` / `declareMethods`, zkapp.ts lines 48–90 and
634–646) -/

/-- An argument kind recorded by method registration: `{type: 'witness'}` or
`{type: 'proof'}`. -/
inductive ArgKind where
  | witnessArg
  | proofArg
deriving DecidableEq, Repr

/-- A JS parameter-type object as probed by `isAsFields` / `isProof`:
truthiness and the presence of the three field-representability members. -/
structure JSTypeObj where
  truthy : Bool
  hasToFields : Bool
  hasOfFields : Bool
  hasSizeInFields : Bool
deriving DecidableEq, Repr

/-- `isAsFields(typ)` (zkapp.ts lines 137–141): truthy and has `toFields`,
`ofFields` and `sizeInFields`. -/
def isAsFields (t : JSTypeObj) : Bool :=
  t.truthy && t.hasToFields && t.hasOfFields && t.hasSizeInFields

/-- `isProof(typ)` (zkapp.ts lines 142–144): always false (nested-proof
arguments are not yet supported). -/
def isProofT (t : JSTypeObj) : Bool := false

/-- A `methodEntry` (zkapp.ts lines 129–135): the method name, the witness and
proof argument types, and the ordered argument classification table. -/
structure MethodEntryD where
  methodName : String
  witnessArgs : List JSTypeObj
  proofArgs : List JSTypeObj
  args : List (ArgKind × Nat)
deriving DecidableEq, Repr

/-- The static state of a `SmartContract` class: `_methods`, the installed
dispatch wrappers (method name with the `argsLength` each wrapper closes
over), and `_provers` (present exactly when the class has been compiled;
handles are opaque ids). -/
structure ZkappClassState where
  methods : List MethodEntryD
  dispatch : List (String × Nat)
  provers : Option (List Nat)
deriving DecidableEq, Repr

/-- The prover-handle resolution prefix of `SmartContract.prove`
(zkapp.ts lines 272–282): `provers ??= ZkappClass._provers`; throw
`NotCompiled` when none are available; look up the method index by name and
throw `MethodNotFound` when absent; otherwise return the provers and index. -/
def proveResolve (cls : ZkappClassState) (suppliedProvers : Option (List Nat))
    (methodName : String) : Except ZkError (List Nat × Nat) :=
  let provers :=
    match suppliedProvers with
    | Option.some ps => Option.some ps
    | Option.none => cls.provers
  match provers with
  | Option.none => .error .notCompiled
  | Option.some ps =>
    match cls.methods.findIdx? (fun m => m.methodName == methodName) with
    | Option.none => .error .methodNotFound
    | Option.some i => .ok (ps, i)

/-- `reservedPropNames` (zkapp.ts line 36). -/
def reservedPropNames : List String := ["_methods", "_"]

/-- The classification loop of `method` (zkapp.ts lines 63–79), with the
three accumulators `args`, `witnessArgs`, `proofArgs`; an unclassifiable
parameter is a construction-time failure. -/
def classifyArgsAux (args : List (ArgKind × Nat)) (witnessArgs proofArgs : List JSTypeObj) :
    List JSTypeObj → Except ZkError (List (ArgKind × Nat) × List JSTypeObj × List JSTypeObj)
  | [] => .ok (args, witnessArgs, proofArgs)
  | p :: rest =>
    if isProofT p then
      classifyArgsAux (args ++ [(ArgKind.proofArg, proofArgs.length)])
        witnessArgs (proofArgs ++ [p]) rest
    else if isAsFields p then
      classifyArgsAux (args ++ [(ArgKind.witnessArg, witnessArgs.length)])
        (witnessArgs ++ [p]) proofArgs rest
    else .error .invalidDeclaration

def classifyArgs (paramTypes : List JSTypeObj) :
    Except ZkError (List (ArgKind × Nat) × List JSTypeObj × List JSTypeObj) :=
  classifyArgsAux [] [] [] paramTypes

/-- The `@method` decorator (zkapp.ts lines 48–90), taking the
`design:paramtypes` metadata as an explicit argument: reject reserved names
and non-function targets, classify the parameters, append the method entry to
`_methods`, and install the dispatch wrapper (recorded as the pair of the
method name and the `argsLength` it closes over). -/
def methodDecorator (cls : ZkappClassState) (methodName : String)
    (isFunction : Bool) (paramTypes : List JSTypeObj) : Except ZkError ZkappClassState :=
  if reservedPropNames.contains methodName then .error .invalidDeclaration
  else if isFunction = false then .error .invalidDeclaration
  else
    match classifyArgs paramTypes with
    | .error e => .error e
    | .ok (args, witnessArgs, proofArgs) =>
        .ok { cls with
              methods := cls.methods ++ [⟨methodName, witnessArgs, proofArgs, args⟩],
              dispatch := cls.dispatch ++ [(methodName, args.length)] }

/-- `declareMethods` (zkapp.ts lines 634–646): for each declared method, set
the `design:paramtypes` metadata to the given argument types and invoke the
`@method` decorator on the class's own property descriptor. -/
def declareMethods (cls : ZkappClassState)
    (methodArguments : List (String × List JSTypeObj)) (isFunctionOn : String → Bool) :
    Except ZkError ZkappClassState :=
  match methodArguments with
  | [] => .ok cls
  | (key, argumentTypes) :: rest =>
    match methodDecorator cls key (isFunctionOn key) argumentTypes with
    | .error e => .error e
    | .ok cls' => declareMethods cls' rest isFunctionOn

/-! ## Transaction assembly (`deploy`, zkapp.ts lines 451–515) -/

/-- Modelled from the spec: `Party.createSigned(feePayerKey, {isSameAsFeePayer:
true, nonce})` from `party.ts` (not under `src/`) — a signed fee-payer/funding
update for the key's address, modelled as a default party carrying a
`signature` authorization for that key. -/
def createSignedParty (toPublicKey : Nat → Nat) (privKey : Nat) : Party :=
  { selfParty (toPublicKey privKey) with authorization := .signature privKey }

/-- Modelled from the spec: `Permissions.default()` from `party.ts`, an opaque
default-permissions value. -/
def defaultPermissions : Nat := 0

/-- The contract's deploy update: `zkapp.deploy({verificationKey, zkappKey})`
(zkapp.ts lines 251–266) sets the verification key and default permissions on
the self party and signs it (`signInPlace` from `party.ts`, modelled from the
spec as attaching a lazy-signature authorization for the zkapp key). -/
def zkappDeployParty (toPublicKey : Nat → Nat) (zkappKey : Nat) (vkHash : F) : Party :=
  { selfParty (toPublicKey zkappKey) with
    verificationKey := Option.some vkHash,
    permissions := Option.some defaultPermissions,
    authorization := .lazySignature (Option.some zkappKey) }

/-- The transaction-building part of `deploy` (zkapp.ts lines 470–502): when
`initialBalance` is set, require `feePayerKey` (else `MissingFeePayerKey`),
create the signed fee-payer update and subtract `initialBalance +
accountCreationFee` from its balance; then build the contract's deploy update,
adding `initialBalance` to its balance when set. Returns the transaction's
party list. `Mina.accountCreationFee()` and key derivation (`toPublicKey`)
are external collaborators passed as parameters. -/
def deployM (toPublicKey : Nat → Nat) (accountCreationFee : Nat) (zkappKey : Nat)
    (vkHash : F) (initialBalance : Option Nat) (feePayerKey : Option Nat) :
    Except ZkError (List Party) :=
  match initialBalance with
  | Option.some b =>
    match feePayerKey with
    | Option.none => .error .missingFeePayerKey
    | Option.some k =>
      let amount : Int := ((b + accountCreationFee : Nat) : Int)
      let feePayer :=
        { createSignedParty toPublicKey k with
          balanceDelta := (createSignedParty toPublicKey k).balanceDelta - amount }
      let zkapp := zkappDeployParty toPublicKey zkappKey vkHash
      let zkapp := { zkapp with balanceDelta := zkapp.balanceDelta + (b : Int) }
      .ok [feePayer, zkapp]
  | Option.none => .ok [zkappDeployParty toPublicKey zkappKey vkHash]

end Zkapp

namespace Zkapp

/-- Claim C2: inside an active transaction-building session (and not forced
direct), the dispatch wrapper attaches at most one authorization to the
pending account update: if any authorization (signature, proof, or lazy) is
already present it attaches nothing and the body runs on the unchanged update;
if none is present it attaches exactly one lazy-proof capturing the method id,
the actual non-flag arguments, and the contract class id; the original body's
result is returned either way. -/
theorem c2_lazy_proof_first_writer_wins
    (body : List JSVal → Party → Party × JSVal) (argsLength : Nat)
    (zkappClassId methodId : Nat) (checkPre : Party → Bool) (compiling : Bool)
    (self : Party) (args : List JSVal)
    (hflag : args.getD argsLength JSVal.undef ≠ JSVal.boolVal true) :
    (hasAuthorizationKeys self.authorization = true →
      wrappedMethod body argsLength zkappClassId methodId checkPre true compiling self args =
        .ok (body (args.take argsLength) self)) ∧
    (hasAuthorizationKeys self.authorization = false →
      wrappedMethod body argsLength zkappClassId methodId checkPre true compiling self args =
        .ok (body (args.take argsLength)
          { self with
            authorization := .lazyProof methodId (args.take argsLength) zkappClassId })) := by
  have hflag' : args[argsLength]?.getD JSVal.undef ≠ JSVal.boolVal true := by
    simpa [List.getD] using hflag
  constructor <;> intro hauth <;>
    simp [wrappedMethod, hflag', hauth]

theorem c2_lazy_proof_first_writer_wins_witness :
    ([JSVal.fieldVal 5].getD 1 JSVal.undef ≠ JSVal.boolVal true) ∧
    (hasAuthorizationKeys (selfParty 9).authorization = false →
      wrappedMethod (fun _ s => (s, JSVal.fieldVal 7)) 1 3 4 (fun _ => true) true false
          (selfParty 9) [JSVal.fieldVal 5] =
        .ok ({ selfParty 9 with
                authorization := .lazyProof 4 [JSVal.fieldVal 5] 3 }, JSVal.fieldVal 7)) :=
  ⟨by decide,
   (c2_lazy_proof_first_writer_wins (fun _ s => (s, JSVal.fieldVal 7)) 1 3 4
      (fun _ => true) false (selfParty 9) [JSVal.fieldVal 5] (by decide)).2⟩

/-- Claim C3: with no transaction-building session active and the execution
context not in compilation mode, the dispatch wrapper returns exactly the
original body applied to the non-flag arguments (the first `argsLength`
invocation arguments) on the unchanged self update, attaching no
authorization. -/
theorem c3_direct_dispatch_is_body
    (body : List JSVal → Party → Party × JSVal) (argsLength : Nat)
    (zkappClassId methodId : Nat) (checkPre : Party → Bool)
    (self : Party) (args : List JSVal) :
    wrappedMethod body argsLength zkappClassId methodId checkPre false false self args =
      .ok (body (args.take argsLength) self) := by
  simp [wrappedMethod]

/-- Claim C7: the statement computed by `toStatement` from an account update
and a tail, fed back into `checkStatement` with the same update and tail,
always succeeds; more precisely `checkStatement` succeeds exactly when the
input statement equals the recomputed one, so the round-trip holds because
recomputation is deterministic. -/
theorem c7_statement_roundtrip (H : HashPrimitives) (self : Party) (tail : F) :
    checkStatement H (toStatement H self tail) self tail = .ok () ∧
    (∀ st : Statement,
      checkStatement H st self tail = .ok () ↔ st = toStatement H self tail) := by
  constructor
  · simp [checkStatement, toStatement, assertEqualsF, exceptBind_ok]
  · intro st
    obtain ⟨t, a⟩ := st
    by_cases h1 : a = H.hashParty self
    · by_cases h2 : t = H.hashTransactionChecked (H.hashParty self)
      · subst h1; subst h2
        simp [checkStatement, toStatement, assertEqualsF, exceptBind_ok]
      · simp [checkStatement, toStatement, assertEqualsF, exceptBind_ok,
          exceptBind_error, h1, h2, Statement.mk.injEq]
    · simp [checkStatement, toStatement, assertEqualsF, exceptBind_ok,
        exceptBind_error, h1, Statement.mk.injEq]

theorem c7_statement_roundtrip_witness :
    checkStatement ⟨fun p => p.publicKey, fun x => x + 1⟩
        (toStatement ⟨fun p => p.publicKey, fun x => x + 1⟩ (selfParty 3) 0)
        (selfParty 3) 0 = .ok () ∧
    (∀ st : Statement,
      checkStatement ⟨fun p => p.publicKey, fun x => x + 1⟩ st (selfParty 3) 0 = .ok () ↔
        st = toStatement ⟨fun p => p.publicKey, fun x => x + 1⟩ (selfParty 3) 0) :=
  c7_statement_roundtrip ⟨fun p => p.publicKey, fun x => x + 1⟩ (selfParty 3) 0

/-- Claim C1 (code bug): the circuit body of a pickles rule does NOT verify
the input statement against a statement recomputed from the self account
update — the source asserts `statement.transaction` against itself and the
`checkStatement` call is commented out (zkapp.ts lines 191–193), contradicting
the claim and the source's own doc comment (lines 149–152). At a concrete
input whose statement diverges from the recomputed one, `checkStatement`
would fail with `StatementMismatch`, yet the circuit body succeeds. -/
theorem c1_statement_check_short_circuited :
    (toStatement ⟨fun p => p.publicKey + 1, fun x => 2 * x + 1⟩ (selfParty 0) 0 ≠
      ⟨10, 20⟩) ∧
    (checkStatement ⟨fun p => p.publicKey + 1, fun x => 2 * x + 1⟩ ⟨10, 20⟩
        (selfParty 0) 0 = .error .statementMismatch) ∧
    (mainRule [] (fun _ => .ok ()) Option.none ⟨10, 20⟩ = .ok ()) :=
  ⟨by decide, rfl, rfl⟩

/-- Claim C4 (amended): `main` performs no witness-arity check and there is no
`WitnessArityMismatch` failure: it consumes exactly the first `n` positions of
the supplied value list (`n` = number of declared witness types), filling
positions past the end of a too-short list with JS `undefined` and silently
ignoring extra supplied values, and proving succeeds whenever the body
succeeds on those `n` values — for supplied lists of any length, including
zero or `n + 1` values. -/
theorem c4_no_arity_check (witnessTypes : List AsFieldElementsM)
    (func : List JSVal → Except ZkError Unit) (ws : List JSVal) (st : Statement)
    (hfunc :
      func ((List.range witnessTypes.length).map fun i => ws.getD i JSVal.undef) =
        .ok ()) :
    mainRule witnessTypes func (Option.some ws) st = .ok () := by
  simp only [mainRule, mainWitnesses]
  rw [hfunc]
  simp [assertEqualsF, exceptBind_ok]

theorem c4_no_arity_check_witness :
    ((fun _ => (Except.ok () : Except ZkError Unit))
        ((List.range 2).map fun i => ([JSVal.fieldVal 1].getD i JSVal.undef)) =
      .ok ()) ∧
    mainRule
        [⟨1, fun l => JSVal.fieldVal (l.getD 0 0)⟩,
         ⟨1, fun l => JSVal.fieldVal (l.getD 0 0)⟩]
        (fun _ => .ok ()) (Option.some [JSVal.fieldVal 1]) ⟨1, 2⟩ = .ok () :=
  ⟨rfl,
   c4_no_arity_check
     [⟨1, fun l => JSVal.fieldVal (l.getD 0 0)⟩,
      ⟨1, fun l => JSVal.fieldVal (l.getD 0 0)⟩]
     (fun _ => .ok ()) [JSVal.fieldVal 1] ⟨1, 2⟩ rfl⟩

/-- Claim C4 counterexample: a method registered with two witness arguments,
proved with three supplied values (and with zero supplied values), does NOT
fail with `WitnessArityMismatch` — the circuit body succeeds in both cases,
refuting the claimed failure. -/
theorem c4_arity_mismatch_succeeds :
    mainRule
        [⟨1, fun l => JSVal.fieldVal (l.getD 0 0)⟩,
         ⟨1, fun l => JSVal.fieldVal (l.getD 0 0)⟩]
        (fun _ => .ok ())
        (Option.some [JSVal.fieldVal 1, JSVal.fieldVal 2, JSVal.fieldVal 3]) ⟨0, 0⟩ =
      .ok () ∧
    mainRule
        [⟨1, fun l => JSVal.fieldVal (l.getD 0 0)⟩,
         ⟨1, fun l => JSVal.fieldVal (l.getD 0 0)⟩]
        (fun _ => .ok ()) (Option.some []) ⟨0, 0⟩ = .ok () :=
  ⟨rfl, rfl⟩

/-- Claim C6: inside a transaction-building session (no ambient main context,
`Mina.currentTransaction` defined), the pending account update is created
lazily on first access (fresh default party, appended to the transaction and
memoized keyed by `Mina.nextTransactionId`), returned unchanged with no state
change by every later access under the same transaction id, and an access
under a different transaction id never returns the stale memoized state but
creates and memoizes a fresh one. -/
theorem c6_execution_state_memoized (inst : SCInstance) (tx : CurrentTx) (nextId : Nat) :
    (inst.executionStateMemo = Option.none →
      executionState Option.none ⟨Option.some tx, nextId⟩ inst =
        (⟨Option.some nextId, Option.some tx.nextPartyIndex, selfParty inst.address⟩,
         ⟨Option.some ⟨tx.parties ++ [selfParty inst.address], tx.nextPartyIndex + 1⟩, nextId⟩,
         ⟨inst.address,
          Option.some ⟨Option.some nextId, Option.some tx.nextPartyIndex, selfParty inst.address⟩⟩)) ∧
    (∀ es : ExecutionState, inst.executionStateMemo = Option.some es →
      es.transactionId = Option.some nextId →
      executionState Option.none ⟨Option.some tx, nextId⟩ inst =
        (es, ⟨Option.some tx, nextId⟩, inst)) ∧
    (∀ es : ExecutionState, inst.executionStateMemo = Option.some es →
      es.transactionId ≠ Option.some nextId →
      executionState Option.none ⟨Option.some tx, nextId⟩ inst =
        (⟨Option.some nextId, Option.some tx.nextPartyIndex, selfParty inst.address⟩,
         ⟨Option.some ⟨tx.parties ++ [selfParty inst.address], tx.nextPartyIndex + 1⟩, nextId⟩,
         ⟨inst.address,
          Option.some ⟨Option.some nextId, Option.some tx.nextPartyIndex, selfParty inst.address⟩⟩)) := by
  refine ⟨?_, ?_, ?_⟩
  · intro hmemo
    simp [executionState, hmemo, executionStateCreate]
  · intro es hmemo htid
    simp [executionState, hmemo, htid, jsEqNum]
  · intro es hmemo htid
    have hfalse : jsEqNum es.transactionId (Option.some nextId) = false := by
      cases hti : es.transactionId with
      | none => simp [jsEqNum]
      | some a =>
          have ha : a ≠ nextId := by
            rintro rfl
            exact htid hti
          simp [jsEqNum, ha]
    simp [executionState, hmemo, hfalse, executionStateCreate]

theorem c6_execution_state_memoized_witness :
    (({ address := 7,
        executionStateMemo :=
          Option.some ⟨Option.some 5, Option.some 0, selfParty 7⟩ } : SCInstance).executionStateMemo
        = Option.some ⟨Option.some 5, Option.some 0, selfParty 7⟩) ∧
    executionState Option.none ⟨Option.some ⟨[selfParty 7], 1⟩, 5⟩
        ⟨7, Option.some ⟨Option.some 5, Option.some 0, selfParty 7⟩⟩ =
      (⟨Option.some 5, Option.some 0, selfParty 7⟩,
       ⟨Option.some ⟨[selfParty 7], 1⟩, 5⟩,
       ⟨7, Option.some ⟨Option.some 5, Option.some 0, selfParty 7⟩⟩) :=
  ⟨rfl,
   (c6_execution_state_memoized
      ⟨7, Option.some ⟨Option.some 5, Option.some 0, selfParty 7⟩⟩
      ⟨[selfParty 7], 1⟩ 5).2.1
     ⟨Option.some 5, Option.some 0, selfParty 7⟩ rfl rfl⟩

/-- Claim C9: with no ambient execution context and no transaction-building
session, each read of `self` returns a fresh default party for the instance's
address carrying the sentinel `NaN` transaction id (which strict-compares
unequal to every id, itself included), and neither the instance memo nor any
transaction state changes — so nothing persists between reads. -/
theorem c9_self_outside_context (mina : MinaState) (inst : SCInstance)
    (h : mina.currentTransaction = Option.none) :
    executionState Option.none mina inst =
      ({ transactionId := Option.none, partyIndex := Option.none,
         party := selfParty inst.address }, mina, inst) ∧
    (∀ y, jsEqNum Option.none y = false) := by
  refine ⟨?_, fun y => by cases y <;> rfl⟩
  obtain ⟨ct, nid⟩ := mina
  change ct = Option.none at h
  subst h
  rfl

theorem c9_self_outside_context_witness :
    (({ currentTransaction := Option.none, nextTransactionId := 0 } : MinaState).currentTransaction
        = Option.none) ∧
    (executionState Option.none ⟨Option.none, 0⟩ ⟨7, Option.none⟩ =
      (⟨Option.none, Option.none, selfParty 7⟩, ⟨Option.none, 0⟩, ⟨7, Option.none⟩) ∧
     (∀ y, jsEqNum Option.none y = false)) :=
  ⟨rfl, c9_self_outside_context ⟨Option.none, 0⟩ ⟨7, Option.none⟩ rfl⟩

theorem findIdxNoneOfNoMatch {l : List MethodEntryD} {name : String}
    (h : ∀ m ∈ l, m.methodName ≠ name) :
    l.findIdx? (fun m => m.methodName == name) = Option.none := by
  induction l with
  | nil => rfl
  | cons x xs ih =>
      have hx : (x.methodName == name) = false := by
        simpa using h x (List.mem_cons_self x xs)
      have hxs := ih fun m hm => h m (List.mem_cons_of_mem _ hm)
      simp [List.findIdx?_cons, hx, hxs]

/-- Claim C5: the prover-handle resolution of `SmartContract.prove` fails with
`NotCompiled` (before any proving) whenever the class carries no compiled
provers and none are supplied, and fails with `MethodNotFound` whenever
provers are available (supplied, or stored by compilation) but the method name
is not among the class's registered methods. -/
theorem c5_prove_error_resolution (cls : ZkappClassState) (name : String) :
    (cls.provers = Option.none →
      proveResolve cls Option.none name = .error .notCompiled) ∧
    (∀ ps : List Nat, (∀ m ∈ cls.methods, m.methodName ≠ name) →
      proveResolve cls (Option.some ps) name = .error .methodNotFound) ∧
    (∀ ps : List Nat, cls.provers = Option.some ps →
      (∀ m ∈ cls.methods, m.methodName ≠ name) →
      proveResolve cls Option.none name = .error .methodNotFound) := by
  refine ⟨?_, ?_, ?_⟩
  · intro hp
    simp [proveResolve, hp]
  · intro ps hname
    simp [proveResolve, findIdxNoneOfNoMatch hname]
  · intro ps hp hname
    simp [proveResolve, hp, findIdxNoneOfNoMatch hname]

theorem c5_prove_error_resolution_witness :
    ((⟨[⟨"bump", [], [], []⟩], [], Option.none⟩ : ZkappClassState).provers = Option.none ∧
     proveResolve ⟨[⟨"bump", [], [], []⟩], [], Option.none⟩ Option.none "bump" =
       .error .notCompiled) ∧
    ((∀ m ∈ (⟨[⟨"bump", [], [], []⟩], [], Option.some [0]⟩ : ZkappClassState).methods,
        m.methodName ≠ "missing") ∧
     proveResolve ⟨[⟨"bump", [], [], []⟩], [], Option.some [0]⟩ Option.none "missing" =
       .error .methodNotFound) :=
  ⟨⟨rfl, (c5_prove_error_resolution ⟨[⟨"bump", [], [], []⟩], [], Option.none⟩ "bump").1 rfl⟩,
   ⟨by decide,
    (c5_prove_error_resolution ⟨[⟨"bump", [], [], []⟩], [], Option.some [0]⟩ "missing").2.2
      [0] rfl (by decide)⟩⟩

/-- Claim C10: registering a method through `declareMethods` is the same as
applying the `@method` decorator with identical parameter-type metadata: for a
single declared method both paths produce the identical class state (same
appended method descriptor and same installed dispatch wrapper), and a batch
registration is exactly the sequential application of the decorator. -/
theorem c10_declare_methods_eq_decorator (cls : ZkappClassState) (key : String)
    (argumentTypes : List JSTypeObj) (isFunctionOn : String → Bool)
    (rest : List (String × List JSTypeObj)) :
    (declareMethods cls [(key, argumentTypes)] isFunctionOn =
      methodDecorator cls key (isFunctionOn key) argumentTypes) ∧
    (declareMethods cls ((key, argumentTypes) :: rest) isFunctionOn =
      methodDecorator cls key (isFunctionOn key) argumentTypes >>= fun cls' =>
        declareMethods cls' rest isFunctionOn) := by
  constructor <;>
    cases h : methodDecorator cls key (isFunctionOn key) argumentTypes <;>
      simp [declareMethods, h, exceptBind_ok, exceptBind_error]

/-- Claim C8: `deploy` with `initialBalance` 100 and a fee-payer key builds a
transaction with exactly two account updates — the signed fee-payer update
with balance delta `-(100 + accountCreationFee)` followed by the contract's
deploy update with balance delta `+100` — and `deploy` with `initialBalance`
set but no fee-payer key fails with `MissingFeePayerKey`. -/
theorem c8_deploy_balance_deltas (toPublicKey : Nat → Nat) (accountCreationFee : Nat)
    (zkappKey feePayerKey : Nat) (vkHash : F) :
    (deployM toPublicKey accountCreationFee zkappKey vkHash
        (Option.some 100) (Option.some feePayerKey) =
      .ok [{ publicKey := toPublicKey feePayerKey,
             balanceDelta := -(100 + (accountCreationFee : Int)),
             authorization := .signature feePayerKey },
           { publicKey := toPublicKey zkappKey,
             balanceDelta := 100,
             verificationKey := Option.some vkHash,
             permissions := Option.some defaultPermissions,
             authorization := .lazySignature (Option.some zkappKey) }]) ∧
    (∀ b : Nat,
      deployM toPublicKey accountCreationFee zkappKey vkHash (Option.some b) Option.none =
        .error .missingFeePayerKey) := by
  constructor
  · simp [deployM, createSignedParty, zkappDeployParty, selfParty, Party.mk.injEq]
  · intro b
    rfl

end Zkapp
